import Mathlib

/-!
Shallow embedding of the request-handling core of `src/server.js`
(the `POST /predict` handler, lines 125–316): input validation,
script resolution, the interpreter-candidate loop, the asynchronous
subprocess event handlers (stdout/stderr data, close, error, timeout)
and the JSON response normalization.

Conventions of the embedding:
* A parsed JSON value (the request body field and the values produced
  by `JSON.parse` on the subprocess output) is the inductive `Json`,
  with numbers as rationals (no arithmetic is ever performed on them,
  only identity and `typeof` checks).
* `JSON.parse` itself is part of the JavaScript runtime, not of the
  repository, so it is a parameter `parse : String → Option Json`
  (`none` models a thrown `SyntaxError`).
* The filesystem (`fs.existsSync`) is a parameter `fsExists : String → Bool`
  and `__dirname` a parameter `dirname : String`.
* The asynchronous callbacks registered on the spawned child process are
  modelled as a step function on a per-request state, driven by an
  explicit event list; the JavaScript event loop runs callbacks one at
  a time, which the sequential fold reflects.
* Node's `spawn` reports launch failures asynchronously through the
  `error` event and does not throw for a missing binary, so the `try`
  body of the candidate loop always reaches its final `break`.
-/

/-- A JSON value, as produced by `JSON.parse`. Numbers are rationals. -/
inductive Json where
  | null : Json
  | bool (b : Bool) : Json
  | num (q : ℚ) : Json
  | str (s : String) : Json
  | arr (elements : List Json) : Json
  | obj (fields : List (String × Json)) : Json

/-- JavaScript `typeof` on a parsed JSON value (`typeof null` is `"object"`). -/
def jsTypeof : Json → String
  | .null => "object"
  | .bool _ => "boolean"
  | .num _ => "number"
  | .str _ => "string"
  | .arr _ => "object"
  | .obj _ => "object"

/-- JavaScript truthiness of `req.body.transcript`, where `none` models the
field being absent (`undefined`). Falsy values reachable from a JSON body:
`undefined`, `null`, `false`, `0`, `""`. -/
def jsTruthy : Option Json → Bool
  | none => false
  | some .null => false
  | some (.bool b) => b
  | some (.num q) => decide (q ≠ 0)
  | some (.str s) => decide (s ≠ "")
  | some (.arr _) => true
  | some (.obj _) => true

/-- JavaScript `String.prototype.trim`: strip leading and trailing whitespace.
Written by structural list recursion so that concrete instances evaluate; the
whitespace class is the ASCII one of `Char.isWhitespace`. -/
def jsTrim (s : String) : String :=
  ⟨(((s.data.dropWhile Char.isWhitespace).reverse).dropWhile Char.isWhitespace).reverse⟩

/-- The diagnostic carried in the `parseError` field of the
"Invalid JSON from Python script" response body: the message of the
exception caught by the `catch (parseError)` block in the close handler. -/
inductive PErr where
  | parseFail (text : String) : PErr
  | nullAccess : PErr
  | expectedNumber (typeName : String) (candidate : Json) : PErr

/-- The JSON body sent by `res.json(...)` on each exit path of the handler,
tagged by which `res.status(...).json({...})` call produced it, carrying the
dynamic fields of that call. -/
inductive Response where
  | ok (prediction : ℚ) : Response
  | transcriptRequired : Response
  | transcriptNotString (typeName : String) : Response
  | transcriptEmpty : Response
  | scriptNotFound (scriptPath : String) : Response
  | scriptExecutionFailed (exitCode : Option Int)
      (stderr stdout pythonCommand scriptPath : String) : Response
  | noOutput (exitCode : Option Int) (stderr pythonCommand scriptPath : String) : Response
  | invalidJson (parseError : PErr) (rawOutput stderr pythonCommand : String) : Response
  | allInterpretersFailed (details : String) (tried : List String)
      (scriptPath : String) : Response
  | timeout (pythonCommand : String) : Response

/-- The HTTP status code set on each response (`res.status(...)`; a bare
`res.json` is status 200). -/
def Response.status : Response → Nat
  | .ok _ => 200
  | .transcriptRequired => 400
  | .transcriptNotString _ => 400
  | .transcriptEmpty => 400
  | .scriptNotFound _ => 500
  | .scriptExecutionFailed _ _ _ _ _ => 500
  | .noOutput _ _ _ _ => 500
  | .invalidJson _ _ _ _ => 500
  | .allInterpretersFailed _ _ _ => 500
  | .timeout _ => 500

/-- The literal `error` field of each response body (`none` for the success
body `{prediction}`, which has no `error` field). -/
def Response.errorField : Response → Option String
  | .ok _ => none
  | .transcriptRequired => some "Transcript is required"
  | .transcriptNotString _ => some "Transcript must be a string"
  | .transcriptEmpty => some "Transcript cannot be empty"
  | .scriptNotFound _ => some "Python script not found"
  | .scriptExecutionFailed _ _ _ _ _ => some "Python script execution failed"
  | .noOutput _ _ _ _ => some "No output from Python script"
  | .invalidJson _ _ _ _ => some "Invalid JSON from Python script"
  | .allInterpretersFailed _ _ _ => some "Failed to start Python process with any command"
  | .timeout _ => some "Python script execution timeout"

/-- The `parseError` diagnostic of a response, when it has one. -/
def Response.parseErrorField : Response → Option PErr
  | .invalidJson pe _ _ _ => some pe
  | _ => none

/-- Whether a response comes from the three transcript-validation checks. -/
def Response.isValidation : Response → Bool
  | .transcriptRequired => true
  | .transcriptNotString _ => true
  | .transcriptEmpty => true
  | _ => false

/-- Lines 129–152: the three validation checks on `req.body.transcript`, in
source order: `if (!transcript)`, then `if (typeof transcript !== 'string')`,
then `if (transcript.trim().length === 0)`. Returns the error response sent,
or `none` when validation passes. -/
def validateTranscript (transcript : Option Json) : Option Response :=
  if jsTruthy transcript = false then some .transcriptRequired
  else
    match transcript with
    | some (.str s) =>
        if jsTrim s = "" then some .transcriptEmpty else none
    | t => some (.transcriptNotString ((t.map jsTypeof).getD "undefined"))

/-- Line 155: `path.join(__dirname, 'scripts', 'debug_predict.py')`. -/
def debugScriptPath (dirname : String) : String :=
  dirname ++ "/scripts/debug_predict.py"

/-- Line 156: `path.join(__dirname, 'scripts', 'predict.py')`. -/
def originalScriptPath (dirname : String) : String :=
  dirname ++ "/scripts/predict.py"

/-- Line 175: `const pythonCommands = ['python3', 'python', 'py'];`. -/
def pythonCommands : List String := ["python3", "python", "py"]

/-- `pythonCommands[pythonCommands.length - 1]`, the guard used by the error
and timeout handlers. -/
def lastPythonCommand : String :=
  (pythonCommands.getD (pythonCommands.length - 1) "")

/-- Line 296: the timeout duration passed to `setTimeout`, in milliseconds. -/
def timeoutMs : Nat := 30000

/-- The mutable per-request state captured by the closures registered on the
spawned child process: the `scriptExecuted` flag (line 176), the `output` and
`errorOutput` accumulators (lines 196–197), the loop variable `pythonCmd` and
the resolved `scriptPath` captured by the handlers, and whether
`python.kill('SIGTERM')` has been invoked. -/
structure ReqState where
  scriptExecuted : Bool
  output : String
  errorOutput : String
  pythonCmd : String
  scriptPath : String
  killed : Bool

/-- The state right after `spawn(pythonCmd, [scriptPath])` returns and the
handlers are registered. -/
def initState (pythonCmd scriptPath : String) : ReqState :=
  { scriptExecuted := false, output := "", errorOutput := "",
    pythonCmd := pythonCmd, scriptPath := scriptPath, killed := false }

/-- `result.prediction !== undefined ? result.prediction : result`
(line 244). Property access on `null` throws a `TypeError`; on an object it
reads the `prediction` field (`undefined`, hence the whole object, when the
field is absent; for duplicate keys `JSON.parse` keeps the last one); on any
other value it yields `undefined`, hence the whole value. -/
def getPrediction : Json → Except PErr Json
  | .null => .error .nullAccess
  | .obj fields =>
      match List.lookup "prediction" fields.reverse with
      | some v => .ok v
      | none => .ok (.obj fields)
  | j => .ok j

/-- The `try { JSON.parse ... } catch (parseError) { ... }` block of the close
handler (lines 240–261): parse the trimmed output, extract the candidate
prediction, check `typeof prediction !== 'number'`, and answer either the
success body `{prediction}` or the 500 "Invalid JSON from Python script" body
whose `parseError` records which exception was caught. -/
def normalizeOutput (parse : String → Option Json) (output errorOutput pythonCmd : String) :
    Response :=
  match parse (jsTrim output) with
  | none => .invalidJson (.parseFail (jsTrim output)) output errorOutput pythonCmd
  | some result =>
      match getPrediction result with
      | .error e => .invalidJson e output errorOutput pythonCmd
      | .ok prediction =>
          match prediction with
          | .num q => .ok q
          | c => .invalidJson (.expectedNumber (jsTypeof c) c) output errorOutput pythonCmd

/-- The `python.on('close', ...)` handler (lines 211–262): return unchanged if
`scriptExecuted` is already set, otherwise set it and answer, in source order,
the nonzero-exit response, the empty-output response, or the parse block.
A `none` exit code models the `null` Node passes when the process was
terminated by a signal. -/
def onClose (parse : String → Option Json) (st : ReqState) (code : Option Int) :
    ReqState × Option Response :=
  if st.scriptExecuted then (st, none)
  else
    let st' := { st with scriptExecuted := true }
    if code ≠ some 0 then
      (st', some (.scriptExecutionFailed code st.errorOutput st.output st.pythonCmd st.scriptPath))
    else if jsTrim st.output = "" then
      (st', some (.noOutput code st.errorOutput st.pythonCmd st.scriptPath))
    else
      (st', some (normalizeOutput parse st.output st.errorOutput st.pythonCmd))

/-- The `python.on('error', ...)` handler (lines 264–279): return if
`scriptExecuted` is set; respond with the "Failed to start Python process with
any command" body only when the captured `pythonCmd` is the last element of
`pythonCommands`; otherwise do nothing at all. -/
def onError (st : ReqState) (details : String) : ReqState × Option Response :=
  if st.scriptExecuted then (st, none)
  else if st.pythonCmd = lastPythonCommand then
    ({ st with scriptExecuted := true },
     some (.allInterpretersFailed details pythonCommands st.scriptPath))
  else (st, none)

/-- The `setTimeout` callback (lines 282–296): when `scriptExecuted` is not
set, kill the process, and respond with the timeout body only when the
captured `pythonCmd` is the last element of `pythonCommands`. -/
def onTimeout (st : ReqState) : ReqState × Option Response :=
  if st.scriptExecuted then (st, none)
  else
    let st' := { st with killed := true }
    if st.pythonCmd = lastPythonCommand then
      ({ st' with scriptExecuted := true }, some (.timeout st.pythonCmd))
    else (st', none)

/-- The `python.stdout.on('data', ...)` handler (lines 199–203): append the
chunk to the accumulated output. It is not guarded by `scriptExecuted`. -/
def onStdout (st : ReqState) (chunk : String) : ReqState × Option Response :=
  ({ st with output := st.output ++ chunk }, none)

/-- The `python.stderr.on('data', ...)` handler (lines 205–209). -/
def onStderr (st : ReqState) (chunk : String) : ReqState × Option Response :=
  ({ st with errorOutput := st.errorOutput ++ chunk }, none)

/-- An asynchronous notification delivered to one of the five callbacks
registered for the spawned process. -/
inductive Event where
  | stdoutData (chunk : String) : Event
  | stderrData (chunk : String) : Event
  | close (code : Option Int) : Event
  | error (details : String) : Event
  | timeoutFire : Event

/-- Dispatch one event to its registered handler. -/
def step (parse : String → Option Json) (st : ReqState) : Event → ReqState × Option Response
  | .stdoutData chunk => onStdout st chunk
  | .stderrData chunk => onStderr st chunk
  | .close code => onClose parse st code
  | .error details => onError st details
  | .timeoutFire => onTimeout st

/-- Run a sequence of events through the handlers, one at a time (the
JavaScript event loop runs callbacks sequentially), collecting every HTTP
response they send. -/
def runEvents (parse : String → Option Json) : ReqState → List Event → ReqState × List Response
  | st, [] => (st, [])
  | st, e :: es =>
      let next := step parse st e
      let rest := runEvents parse next.1 es
      (rest.1, next.2.toList ++ rest.2)

/-- The synchronous part of the candidate loop (lines 178–315):
`for (const pythonCmd of pythonCommands) { if (scriptExecuted) break;
try { spawn ...; break } catch ... }`. `spawn` reports a missing binary
asynchronously through the `error` event and does not throw here, so the
`try` body always runs to its final `break`: the loop spawns the head
candidate and exits. Returns the commands actually passed to `spawn` and the
request state created for the spawned process. -/
def attemptLoop (scriptPath : String) (scriptExecuted : Bool) :
    List String → List String × Option ReqState
  | [] => ([], none)
  | pythonCmd :: _ =>
      if scriptExecuted then ([], none)
      else ([pythonCmd], some (initState pythonCmd scriptPath))

/-- How the synchronous part of the `/predict` handler ends: either a response
was already sent (validation or script resolution failed) before any spawn,
or a subprocess was spawned and the request now waits for events. -/
inductive HandlerResult where
  | early (r : Response) : HandlerResult
  | spawned (cmds : List String) (st : Option ReqState) : HandlerResult

/-- Lines 154–315 after successful validation: script resolution
(`fs.existsSync(debugScriptPath) ? debugScriptPath : originalScriptPath`,
then `if (!fs.existsSync(scriptPath))` answering the 500 script-not-found
body carrying the attempted path), then the candidate loop. -/
def resolveAndSpawn (fsExists : String → Bool) (dirname : String) : HandlerResult :=
  let scriptPath :=
    if fsExists (debugScriptPath dirname) then debugScriptPath dirname
    else originalScriptPath dirname
  if fsExists scriptPath then
    .spawned (attemptLoop scriptPath false pythonCommands).1
      (attemptLoop scriptPath false pythonCommands).2
  else .early (.scriptNotFound scriptPath)

/-- The `/predict` handler from the start of the body to the end of the
candidate loop (lines 129–315): the three validation checks short-circuit
with `return`, and only then are the script paths looked up and the loop
entered. -/
def handlePredict (fsExists : String → Bool) (dirname : String)
    (transcript : Option Json) : HandlerResult :=
  match validateTranscript transcript with
  | some r => .early r
  | none => resolveAndSpawn fsExists dirname

/-- Whether the synchronous handler ended by sending a 400 validation
response without spawning any subprocess. -/
def HandlerResult.isEarlyValidation400 : HandlerResult → Bool
  | .early r => r.status == 400 && r.isValidation
  | .spawned _ _ => false

/-- Every response the validator can return is a 400 validation response. -/
theorem validateTranscript_isValidation (t : Option Json) (r : Response)
    (h : validateTranscript t = some r) :
    r.status = 400 ∧ r.isValidation = true := by
  unfold validateTranscript at h
  split at h
  · cases h; exact ⟨rfl, rfl⟩
  · split at h
    · split at h
      · cases h; exact ⟨rfl, rfl⟩
      · cases h
    · cases h; exact ⟨rfl, rfl⟩

/-- A failed validation short-circuits the handler. -/
theorem handlePredict_early_of_validate (fsExists : String → Bool) (dirname : String)
    (t : Option Json) (r : Response) (h : validateTranscript t = some r) :
    handlePredict fsExists dirname t = .early r := by
  unfold handlePredict
  rw [h]

/-- A passed validation reaches script resolution. -/
theorem handlePredict_of_valid (fsExists : String → Bool) (dirname : String)
    (t : Option Json) (h : validateTranscript t = none) :
    handlePredict fsExists dirname t = resolveAndSpawn fsExists dirname := by
  unfold handlePredict
  rw [h]

/-- Once `scriptExecuted` is set, every handler returns without responding and
leaves the flag set. -/
theorem step_of_executed (parse : String → Option Json) (st : ReqState) (e : Event)
    (h : st.scriptExecuted = true) :
    (step parse st e).2 = none ∧ (step parse st e).1.scriptExecuted = true := by
  cases e <;> simp [step, onStdout, onStderr, onClose, onError, onTimeout, h]

/-- Every handler that responds sets `scriptExecuted` in the same step. -/
theorem step_executed_of_response (parse : String → Option Json) (st : ReqState) (e : Event)
    (h : (step parse st e).2 ≠ none) :
    (step parse st e).1.scriptExecuted = true := by
  by_cases hs : st.scriptExecuted = true
  · exact absurd (step_of_executed parse st e hs).1 h
  · replace hs : st.scriptExecuted = false := by
      cases hb : st.scriptExecuted
      · rfl
      · exact absurd hb hs
    cases e with
    | stdoutData c => exact absurd rfl h
    | stderrData c => exact absurd rfl h
    | close code =>
        by_cases h0 : code = some 0
        · by_cases hout : jsTrim st.output = "" <;> simp [step, onClose, hs, h0, hout]
        · simp [step, onClose, hs, h0]
    | error d =>
        by_cases hcmd : st.pythonCmd = lastPythonCommand
        · simp [step, onError, hs, hcmd]
        · exact absurd (by simp [step, onError, hs, hcmd]) h
    | timeoutFire =>
        by_cases hcmd : st.pythonCmd = lastPythonCommand
        · simp [step, onTimeout, hs, hcmd]
        · exact absurd (by simp [step, onTimeout, hs, hcmd]) h

/-- After the flag is set, no sequence of further events produces a response. -/
theorem runEvents_executed (parse : String → Option Json) (st : ReqState) (es : List Event)
    (h : st.scriptExecuted = true) :
    (runEvents parse st es).2 = [] := by
  induction es generalizing st with
  | nil => rfl
  | cons e es ih =>
      have hstep := step_of_executed parse st e h
      simp only [runEvents]
      simp [hstep.1, ih (step parse st e).1 hstep.2]

/-- C3: for every request, the event handlers send at most one HTTP response
over any sequence of asynchronous events, and once a terminal outcome has been
reported (the `scriptExecuted` flag is set exactly when a response has been
sent) every later event — late output chunk, delayed exit, delayed launch
error, or the timeout timer firing — produces no further response. -/
theorem c3_at_most_once_response (parse : String → Option Json) (st : ReqState)
    (es : List Event) :
    (runEvents parse st es).2.length ≤ 1 ∧
    (st.scriptExecuted = true → (runEvents parse st es).2 = []) := by
  constructor
  · induction es generalizing st with
    | nil => simp [runEvents]
    | cons e es ih =>
        simp only [runEvents]
        rcases hr : (step parse st e).2 with _ | r
        · simpa [hr] using ih (step parse st e).1
        · have hx := step_executed_of_response parse st e (by simp [hr])
          have hrest := runEvents_executed parse (step parse st e).1 es hx
          simp [hr, hrest]
  · intro h
    exact runEvents_executed parse st es h

/-- C3 witness: a concrete run — output, a normal exit, then artificial late
events — yields at most one response, and a request whose flag is already set
yields none. -/
theorem c3_at_most_once_response_witness :
    (runEvents (fun _ => none) (initState "python3" "/s")
        [.stdoutData "x", .close (some 0), .close (some 0), .timeoutFire]).2.length ≤ 1 ∧
    (runEvents (fun _ => none)
        { initState "python3" "/s" with scriptExecuted := true }
        [.close (some 0)]).2 = [] :=
  ⟨(c3_at_most_once_response (fun _ => none) (initState "python3" "/s")
      [.stdoutData "x", .close (some 0), .close (some 0), .timeoutFire]).1,
   (c3_at_most_once_response (fun _ => none)
      { initState "python3" "/s" with scriptExecuted := true }
      [.close (some 0)]).2 rfl⟩

/-- C4 counterexample: the body `{transcript: ""}` has a `transcript` that is
present and is a string whose trimmed length is zero, so the claim requires
the EmptyValue response ("Transcript cannot be empty"); the code checks
JavaScript truthiness first (`if (!transcript)`) and answers the MissingField
response ("Transcript is required") instead. -/
theorem c4_empty_string_misclassified :
    validateTranscript (some (Json.str "")) = some Response.transcriptRequired ∧
    jsTrim "" = "" ∧
    Response.transcriptRequired ≠ Response.transcriptEmpty :=
  ⟨rfl, rfl, fun h => Response.noConfusion h⟩

/-- C4 (amended): the validator answers MissingField exactly when `transcript`
is absent or JavaScript-falsy (`null`, `false`, `0`, `""`); WrongType exactly
when it is present, truthy and not a string; EmptyValue exactly when it is a
nonempty string whose trimmed length is zero; and passes exactly when it is a
string with nonblank content. -/
theorem c4_validator_characterization (t : Option Json) :
    (validateTranscript t = some Response.transcriptRequired ↔ jsTruthy t = false) ∧
    ((∃ ty, validateTranscript t = some (Response.transcriptNotString ty)) ↔
      (jsTruthy t = true ∧ ∀ s, t ≠ some (Json.str s))) ∧
    (validateTranscript t = some Response.transcriptEmpty ↔
      ∃ s, t = some (Json.str s) ∧ s ≠ "" ∧ jsTrim s = "") ∧
    (validateTranscript t = none ↔ ∃ s, t = some (Json.str s) ∧ jsTrim s ≠ "") := by
  rcases t with _ | j
  · simp [validateTranscript, jsTruthy]
  · cases j with
    | null => simp [validateTranscript, jsTruthy]
    | bool b => cases b <;> simp [validateTranscript, jsTruthy]
    | num q =>
        by_cases hq : q = 0
        · subst hq; simp [validateTranscript, jsTruthy]
        · simp [validateTranscript, jsTruthy, hq]
    | str s =>
        by_cases hs : s = ""
        · subst hs; simp [validateTranscript, jsTruthy, jsTrim]
        · by_cases ht : jsTrim s = "" <;>
            simp [validateTranscript, jsTruthy, hs, ht]
    | arr xs => simp [validateTranscript, jsTruthy]
    | obj fields => simp [validateTranscript, jsTruthy]

/-- C5: when the first terminal close event arrives — `scriptExecuted` not yet
set — a nonzero (or signal) exit code yields the script-execution-failed
response carrying the exit code, accumulated stderr and accumulated stdout,
whatever stdout contains; exit code 0 with blank accumulated output yields the
no-output response; and exit code 0 with nonblank output hands exactly the
accumulated output (with the accumulated stderr) to the response normalizer. -/
theorem c5_close_outcomes (parse : String → Option Json) (st : ReqState)
    (code : Option Int) (h : st.scriptExecuted = false) :
    (code ≠ some 0 →
      onClose parse st code = ({ st with scriptExecuted := true },
        some (.scriptExecutionFailed code st.errorOutput st.output
          st.pythonCmd st.scriptPath))) ∧
    (code = some 0 → jsTrim st.output = "" →
      onClose parse st code = ({ st with scriptExecuted := true },
        some (.noOutput code st.errorOutput st.pythonCmd st.scriptPath))) ∧
    (code = some 0 → jsTrim st.output ≠ "" →
      onClose parse st code = ({ st with scriptExecuted := true },
        some (normalizeOutput parse st.output st.errorOutput st.pythonCmd))) := by
  refine ⟨fun hc => ?_, fun hc hout => ?_, fun hc hout => ?_⟩
  · simp [onClose, h, hc]
  · simp [onClose, h, hc, hout]
  · simp [onClose, h, hc, hout]

/-- C5 witness: concrete close events — exit 1, exit 0 with blank output, and
exit 0 with output handed to the normalizer. -/
theorem c5_close_outcomes_witness :
    onClose (fun _ => none) (initState "python3" "/s") (some 1) =
      ({ initState "python3" "/s" with scriptExecuted := true },
        some (.scriptExecutionFailed (some 1) "" "" "python3" "/s")) ∧
    onClose (fun _ => none) (initState "python3" "/s") (some 0) =
      ({ initState "python3" "/s" with scriptExecuted := true },
        some (.noOutput (some 0) "" "python3" "/s")) ∧
    onClose (fun _ => none)
        { initState "python3" "/s" with output := "0.5" } (some 0) =
      ({ initState "python3" "/s" with output := "0.5", scriptExecuted := true },
        some (normalizeOutput (fun _ => none) "0.5" "" "python3")) :=
  ⟨(c5_close_outcomes (fun _ => none) (initState "python3" "/s") (some 1) rfl).1
      (by decide),
   (c5_close_outcomes (fun _ => none) (initState "python3" "/s") (some 0) rfl).2.1
      rfl rfl,
   (c5_close_outcomes (fun _ => none)
      { initState "python3" "/s" with output := "0.5" } (some 0) rfl).2.2
      rfl (by decide)⟩

/-- C7: for every request body whose `transcript` is absent, or present but
not a string, or a string that is blank after trimming, the handler ends early
with a 400 validation response and never reaches the spawn loop. -/
theorem c7_validation_short_circuits (fsExists : String → Bool) (dirname : String)
    (t : Option Json)
    (h : t = none ∨ (∃ j, t = some j ∧ ∀ s, j ≠ Json.str s) ∨
         (∃ s, t = some (Json.str s) ∧ jsTrim s = "")) :
    (handlePredict fsExists dirname t).isEarlyValidation400 = true := by
  have key : ∃ r, validateTranscript t = some r := by
    rcases h with rfl | ⟨j, rfl, hj⟩ | ⟨s, rfl, hs⟩
    · exact ⟨_, rfl⟩
    · cases j with
      | str s => exact absurd rfl (hj s)
      | null => exact ⟨_, rfl⟩
      | bool b => cases b <;> exact ⟨_, rfl⟩
      | num q =>
          by_cases hq : q = 0
          · subst hq; exact ⟨_, rfl⟩
          · exact ⟨.transcriptNotString "number",
              by simp [validateTranscript, jsTruthy, jsTypeof, hq]⟩
      | arr xs => exact ⟨_, rfl⟩
      | obj fields => exact ⟨_, rfl⟩
    · by_cases hse : s = ""
      · subst hse; exact ⟨_, rfl⟩
      · exact ⟨.transcriptEmpty, by simp [validateTranscript, jsTruthy, hse, hs]⟩
  obtain ⟨r, hr⟩ := key
  have hv := validateTranscript_isValidation t r hr
  rw [handlePredict_early_of_validate fsExists dirname t r hr]
  simp [HandlerResult.isEarlyValidation400, hv.1, hv.2]

/-- C7 witness: an absent transcript, a numeric transcript, and a blank
transcript each draw an early 400 validation response. -/
theorem c7_validation_short_circuits_witness :
    (handlePredict (fun _ => true) "/app" none).isEarlyValidation400 = true ∧
    (handlePredict (fun _ => true) "/app"
        (some (Json.num 5))).isEarlyValidation400 = true ∧
    (handlePredict (fun _ => true) "/app"
        (some (Json.str " "))).isEarlyValidation400 = true :=
  ⟨c7_validation_short_circuits (fun _ => true) "/app" none (Or.inl rfl),
   c7_validation_short_circuits (fun _ => true) "/app" (some (Json.num 5))
     (Or.inr (Or.inl ⟨Json.num 5, rfl, fun _ h => Json.noConfusion h⟩)),
   c7_validation_short_circuits (fun _ => true) "/app" (some (Json.str " "))
     (Or.inr (Or.inr ⟨" ", rfl, rfl⟩))⟩

/-- C8: after validation passes, when the debug script file exists the spawned
attempt uses the debug path; when only the standard script exists it uses the
standard path; and when neither exists the handler ends early — before any
spawn — with the 500 script-not-found response carrying the attempted path. -/
theorem c8_script_resolution (fsExists : String → Bool) (dirname : String)
    (t : Option Json) (hv : validateTranscript t = none) :
    (fsExists (debugScriptPath dirname) = true →
      handlePredict fsExists dirname t =
        .spawned ["python3"] (some (initState "python3" (debugScriptPath dirname)))) ∧
    (fsExists (debugScriptPath dirname) = false →
      fsExists (originalScriptPath dirname) = true →
      handlePredict fsExists dirname t =
        .spawned ["python3"] (some (initState "python3" (originalScriptPath dirname)))) ∧
    (fsExists (debugScriptPath dirname) = false →
      fsExists (originalScriptPath dirname) = false →
      handlePredict fsExists dirname t =
        .early (.scriptNotFound (originalScriptPath dirname)) ∧
      (Response.scriptNotFound (originalScriptPath dirname)).status = 500 ∧
      (Response.scriptNotFound (originalScriptPath dirname)).errorField =
        some "Python script not found") := by
  rw [handlePredict_of_valid fsExists dirname t hv]
  refine ⟨fun hd => ?_, fun hd ho => ?_, fun hd ho => ⟨?_, rfl, rfl⟩⟩
  · simp [resolveAndSpawn, hd, attemptLoop, pythonCommands]
  · simp [resolveAndSpawn, hd, ho, attemptLoop, pythonCommands]
  · simp [resolveAndSpawn, hd, ho]

/-- C8 witness: both script files present, only the standard one present, and
neither present, on a valid request. -/
theorem c8_script_resolution_witness :
    handlePredict (fun _ => true) "/app" (some (Json.str "hi")) =
      .spawned ["python3"] (some (initState "python3" (debugScriptPath "/app"))) ∧
    handlePredict (fun p => p = originalScriptPath "/app") "/app" (some (Json.str "hi")) =
      .spawned ["python3"] (some (initState "python3" (originalScriptPath "/app"))) ∧
    handlePredict (fun _ => false) "/app" (some (Json.str "hi")) =
      .early (.scriptNotFound (originalScriptPath "/app")) :=
  ⟨(c8_script_resolution (fun _ => true) "/app" (some (Json.str "hi")) rfl).1 rfl,
   (c8_script_resolution (fun p => p = originalScriptPath "/app") "/app"
      (some (Json.str "hi")) rfl).2.1 (by decide) (by decide),
   ((c8_script_resolution (fun _ => false) "/app" (some (Json.str "hi")) rfl).2.2
      rfl rfl).1⟩

/-- C9: whenever the handler reaches the candidate loop, exactly one spawn
call is made, always with the first candidate binary "python3"; the remaining
candidates "python" and "py" are never spawned, whatever later becomes of the
spawned process, because the loop body unconditionally reaches its final
break on the first iteration. -/
theorem c9_only_first_candidate_spawned (fsExists : String → Bool) (dirname : String)
    (t : Option Json) (cmds : List String) (st : Option ReqState)
    (h : handlePredict fsExists dirname t = .spawned cmds st) :
    cmds = ["python3"] ∧ cmds.length = 1 ∧ "python" ∉ cmds ∧ "py" ∉ cmds ∧
    st.map ReqState.pythonCmd = some "python3" := by
  unfold handlePredict at h
  cases hv : validateTranscript t with
  | some r => rw [hv] at h; exact HandlerResult.noConfusion h
  | none =>
      rw [hv] at h
      simp only [resolveAndSpawn] at h
      split at h
      · simp only [attemptLoop, pythonCommands, if_neg Bool.false_ne_true] at h
        injection h with h1 h2
        subst h1; subst h2
        exact ⟨rfl, rfl, by decide, by decide, rfl⟩
      · split at h
        · simp only [attemptLoop, pythonCommands, if_neg Bool.false_ne_true] at h
          injection h with h1 h2
          subst h1; subst h2
          exact ⟨rfl, rfl, by decide, by decide, rfl⟩
        · exact HandlerResult.noConfusion h

/-- C9 witness: on a concrete valid request with both scripts present, the
spawned command list is exactly ["python3"]. -/
theorem c9_only_first_candidate_spawned_witness :
    ("python" ∉ (["python3"] : List String)) ∧
    ("py" ∉ (["python3"] : List String)) ∧
    (["python3"] : List String).length = 1 :=
  ⟨(c9_only_first_candidate_spawned (fun _ => true) "/app" (some (Json.str "hi"))
      ["python3"] (some (initState "python3" (debugScriptPath "/app"))) rfl).2.2.1,
   (c9_only_first_candidate_spawned (fun _ => true) "/app" (some (Json.str "hi"))
      ["python3"] (some (initState "python3" (debugScriptPath "/app"))) rfl).2.2.2.1,
   (c9_only_first_candidate_spawned (fun _ => true) "/app" (some (Json.str "hi"))
      ["python3"] (some (initState "python3" (debugScriptPath "/app"))) rfl).2.1⟩

/-- Unparseable stdout yields the invalid-JSON response with the parse-failure
diagnostic and the raw (untrimmed) output. -/
theorem normalizeOutput_parseFail (parse : String → Option Json)
    (output errorOutput pythonCmd : String) (hp : parse (jsTrim output) = none) :
    normalizeOutput parse output errorOutput pythonCmd =
      .invalidJson (.parseFail (jsTrim output)) output errorOutput pythonCmd := by
  simp [normalizeOutput, hp]

/-- A parsed `null` raises a TypeError reading `.prediction` and lands in the
same catch block. -/
theorem normalizeOutput_null (parse : String → Option Json)
    (output errorOutput pythonCmd : String) (hp : parse (jsTrim output) = some .null) :
    normalizeOutput parse output errorOutput pythonCmd =
      .invalidJson .nullAccess output errorOutput pythonCmd := by
  simp [normalizeOutput, hp, getPrediction]

/-- A numeric candidate prediction yields the 200 success body. -/
theorem normalizeOutput_num (parse : String → Option Json)
    (output errorOutput pythonCmd : String) (j : Json) (q : ℚ)
    (hp : parse (jsTrim output) = some j) (hj : getPrediction j = .ok (.num q)) :
    normalizeOutput parse output errorOutput pythonCmd = .ok q := by
  simp [normalizeOutput, hp, hj]

/-- A non-numeric candidate prediction yields the invalid-JSON response with
the expected-number diagnostic carrying the candidate. -/
theorem normalizeOutput_nonNum (parse : String → Option Json)
    (output errorOutput pythonCmd : String) (j c : Json)
    (hp : parse (jsTrim output) = some j) (hj : getPrediction j = .ok c)
    (hc : ∀ q, c ≠ Json.num q) :
    normalizeOutput parse output errorOutput pythonCmd =
      .invalidJson (.expectedNumber (jsTypeof c) c) output errorOutput pythonCmd := by
  simp only [normalizeOutput, hp, hj]

/-- The normalizer answers 200 exactly when the extracted candidate is a
number. -/
theorem normalizeOutput_ok_iff (parse : String → Option Json)
    (output errorOutput pythonCmd : String) :
    (∃ q, normalizeOutput parse output errorOutput pythonCmd = .ok q) ↔
      (∃ j q, parse (jsTrim output) = some j ∧ getPrediction j = .ok (.num q)) := by
  constructor
  · rintro ⟨q, hq⟩
    cases hp : parse (jsTrim output) with
    | none => rw [normalizeOutput_parseFail parse output errorOutput pythonCmd hp] at hq
              exact Response.noConfusion hq
    | some j =>
        cases hg : getPrediction j with
        | error e =>
            simp only [normalizeOutput, hp, hg] at hq
            exact Response.noConfusion hq
        | ok c =>
            cases c with
            | num q2 => exact ⟨j, q2, rfl, hg⟩
            | null =>
                rw [normalizeOutput_nonNum parse output errorOutput pythonCmd j _ hp hg
                  (fun _ h => Json.noConfusion h)] at hq
                exact Response.noConfusion hq
            | bool b =>
                rw [normalizeOutput_nonNum parse output errorOutput pythonCmd j _ hp hg
                  (fun _ h => Json.noConfusion h)] at hq
                exact Response.noConfusion hq
            | str s =>
                rw [normalizeOutput_nonNum parse output errorOutput pythonCmd j _ hp hg
                  (fun _ h => Json.noConfusion h)] at hq
                exact Response.noConfusion hq
            | arr xs =>
                rw [normalizeOutput_nonNum parse output errorOutput pythonCmd j _ hp hg
                  (fun _ h => Json.noConfusion h)] at hq
                exact Response.noConfusion hq
            | obj fields =>
                rw [normalizeOutput_nonNum parse output errorOutput pythonCmd j _ hp hg
                  (fun _ h => Json.noConfusion h)] at hq
                exact Response.noConfusion hq
  · rintro ⟨j, q, hp, hg⟩
    exact ⟨q, normalizeOutput_num parse output errorOutput pythonCmd j q hp hg⟩

/-- C6 counterexample: for stdout `null` (valid JSON), the claim's extraction
rule would take the whole parsed value `null` as the candidate and answer the
NonNumericPrediction-style diagnostic (`expectedNumber` carrying the
candidate); the code instead throws a TypeError while reading `.prediction` of
`null`, so the caught diagnostic is the TypeError one. -/
theorem c6_null_stdout_counterexample :
    normalizeOutput (fun s => if s = "null" then some Json.null else none)
        "null" "" "python3" =
      .invalidJson .nullAccess "null" "" "python3" ∧
    PErr.nullAccess ≠ PErr.expectedNumber (jsTypeof Json.null) Json.null :=
  ⟨rfl, fun h => PErr.noConfusion h⟩

/-- C6 (amended): the normalizer parses the trimmed stdout as JSON; stdout
that does not parse yields the 500 invalid-JSON response carrying the raw
output; a parsed `null` raises a TypeError reading its `prediction` property
and yields the same 500 response with the TypeError diagnostic; otherwise the
candidate is the `prediction` field when the parsed value is an object
containing one and the whole parsed value when not, the response is
`200 {prediction: candidate}` exactly when the candidate is a number, and a
non-numeric candidate yields the 500 response with the expected-number
diagnostic carrying the candidate — never a coerced number. -/
theorem c6_normalizer_characterization (parse : String → Option Json)
    (output errorOutput pythonCmd : String) :
    (parse (jsTrim output) = none →
      normalizeOutput parse output errorOutput pythonCmd =
        .invalidJson (.parseFail (jsTrim output)) output errorOutput pythonCmd) ∧
    (parse (jsTrim output) = some Json.null →
      normalizeOutput parse output errorOutput pythonCmd =
        .invalidJson .nullAccess output errorOutput pythonCmd) ∧
    (∀ j q, parse (jsTrim output) = some j → getPrediction j = .ok (.num q) →
      normalizeOutput parse output errorOutput pythonCmd = .ok q) ∧
    (∀ j c, parse (jsTrim output) = some j → getPrediction j = .ok c →
      (∀ q, c ≠ Json.num q) →
      normalizeOutput parse output errorOutput pythonCmd =
        .invalidJson (.expectedNumber (jsTypeof c) c) output errorOutput pythonCmd) ∧
    ((∃ q, normalizeOutput parse output errorOutput pythonCmd = .ok q) ↔
      (∃ j q, parse (jsTrim output) = some j ∧ getPrediction j = .ok (.num q))) :=
  ⟨normalizeOutput_parseFail parse output errorOutput pythonCmd,
   normalizeOutput_null parse output errorOutput pythonCmd,
   fun j q => normalizeOutput_num parse output errorOutput pythonCmd j q,
   fun j c => normalizeOutput_nonNum parse output errorOutput pythonCmd j c,
   normalizeOutput_ok_iff parse output errorOutput pythonCmd⟩

/-- C6 witness: stdout `{"prediction": 0.73}` answers `200 {prediction: 0.73}`,
bare stdout `0.5` answers `200 {prediction: 0.5}`, unparseable stdout answers
the parse-failure diagnostic, and stdout `"ok"` (a non-numeric candidate)
answers the expected-number diagnostic. -/
theorem c6_normalizer_characterization_witness :
    normalizeOutput
        (fun s => if s = "\x7b\"prediction\": 0.73\x7d" then
          some (Json.obj [("prediction", Json.num 0.73)]) else none)
        "\x7b\"prediction\": 0.73\x7d" "" "python3" = .ok 0.73 ∧
    normalizeOutput (fun s => if s = "0.5" then some (Json.num 0.5) else none)
        "0.5" "" "python3" = .ok 0.5 ∧
    normalizeOutput (fun _ => none) "notjson" "" "python3" =
      .invalidJson (.parseFail (jsTrim "notjson")) "notjson" "" "python3" ∧
    normalizeOutput (fun _ => some (Json.str "ok")) "\"ok\"" "" "python3" =
      .invalidJson (.expectedNumber (jsTypeof (Json.str "ok")) (Json.str "ok"))
        "\"ok\"" "" "python3" :=
  ⟨(c6_normalizer_characterization _ "\x7b\"prediction\": 0.73\x7d" "" "python3").2.2.1
      (Json.obj [("prediction", Json.num 0.73)]) 0.73 rfl rfl,
   (c6_normalizer_characterization _ "0.5" "" "python3").2.2.1
      (Json.num 0.5) 0.5 rfl rfl,
   (c6_normalizer_characterization (fun _ => none) "notjson" "" "python3").1 rfl,
   (c6_normalizer_characterization (fun _ => some (Json.str "ok")) "\"ok\"" "" "python3").2.2.2.1
      (Json.str "ok") (Json.str "ok") rfl rfl (fun _ h => Json.noConfusion h)⟩

/-- C10: the non-numeric-candidate failure and the unparseable-stdout failure
both answer status 500 with the identical error field "Invalid JSON from
Python script"; the two kinds differ only in the `parseError` diagnostic
(a parse-failure message versus an expected-number message). -/
theorem c10_error_tags_indistinguishable (parse : String → Option Json)
    (output errorOutput pythonCmd : String) :
    (parse (jsTrim output) = none →
      (normalizeOutput parse output errorOutput pythonCmd).status = 500 ∧
      (normalizeOutput parse output errorOutput pythonCmd).errorField =
        some "Invalid JSON from Python script" ∧
      (normalizeOutput parse output errorOutput pythonCmd).parseErrorField =
        some (.parseFail (jsTrim output))) ∧
    (∀ j c, parse (jsTrim output) = some j → getPrediction j = .ok c →
      (∀ q, c ≠ Json.num q) →
      (normalizeOutput parse output errorOutput pythonCmd).status = 500 ∧
      (normalizeOutput parse output errorOutput pythonCmd).errorField =
        some "Invalid JSON from Python script" ∧
      (normalizeOutput parse output errorOutput pythonCmd).parseErrorField =
        some (.expectedNumber (jsTypeof c) c)) ∧
    (∀ text ty c, PErr.parseFail text ≠ PErr.expectedNumber ty c) := by
  refine ⟨fun hp => ?_, fun j c hp hj hc => ?_, fun _ _ _ h => PErr.noConfusion h⟩
  · rw [normalizeOutput_parseFail parse output errorOutput pythonCmd hp]
    exact ⟨rfl, rfl, rfl⟩
  · rw [normalizeOutput_nonNum parse output errorOutput pythonCmd j c hp hj hc]
    exact ⟨rfl, rfl, rfl⟩

/-- C10 witness: unparseable stdout and string-candidate stdout both answer
500 with the same error field, and their diagnostics differ. -/
theorem c10_error_tags_indistinguishable_witness :
    (normalizeOutput (fun _ => none) "notjson" "" "python3").status = 500 ∧
    (normalizeOutput (fun _ => none) "notjson" "" "python3").errorField =
      some "Invalid JSON from Python script" ∧
    (normalizeOutput (fun _ => some (Json.str "ok")) "\"ok\"" "" "python3").status = 500 ∧
    (normalizeOutput (fun _ => some (Json.str "ok")) "\"ok\"" "" "python3").errorField =
      some "Invalid JSON from Python script" ∧
    PErr.parseFail (jsTrim "notjson") ≠
      PErr.expectedNumber (jsTypeof (Json.str "ok")) (Json.str "ok") :=
  ⟨((c10_error_tags_indistinguishable (fun _ => none) "notjson" "" "python3").1 rfl).1,
   ((c10_error_tags_indistinguishable (fun _ => none) "notjson" "" "python3").1 rfl).2.1,
   ((c10_error_tags_indistinguishable (fun _ => some (Json.str "ok")) "\"ok\"" "" "python3").2.1
      (Json.str "ok") (Json.str "ok") rfl rfl (fun _ h => Json.noConfusion h)).1,
   ((c10_error_tags_indistinguishable (fun _ => some (Json.str "ok")) "\"ok\"" "" "python3").2.1
      (Json.str "ok") (Json.str "ok") rfl rfl (fun _ h => Json.noConfusion h)).2.1,
   (c10_error_tags_indistinguishable (fun _ => none) "x" "" "python3").2.2
      (jsTrim "notjson") (jsTypeof (Json.str "ok")) (Json.str "ok")⟩

/-- C1 (the code at the failing input): on a valid request with the standard
script present, only "python3" is ever spawned; when its launch fails (the
error event fires) no further candidate is spawned — the loop exited at its
unconditional break — and no response at all is sent, because the error
handler only responds when the captured command is the last candidate "py",
which "python3" never is. The spec's fallback-to-next-candidate and final
AllInterpretersFailed response never happen. -/
theorem c1_launch_failure_never_reported :
    handlePredict (fun p => p = originalScriptPath "/app") "/app"
        (some (Json.str "hello")) =
      .spawned ["python3"] (some (initState "python3" (originalScriptPath "/app"))) ∧
    (runEvents (fun _ => none) (initState "python3" (originalScriptPath "/app"))
        [.error "spawn python3 ENOENT"]).2 = [] ∧
    (runEvents (fun _ => none) (initState "python3" (originalScriptPath "/app"))
        [.error "spawn python3 ENOENT"]).1.scriptExecuted = false ∧
    ("python3" : String) ≠ lastPythonCommand :=
  ⟨rfl, rfl, rfl, by decide⟩

/-- C2 (the code at the failing input): when the 30-second timer fires with no
exit, the callback kills the process but sends no response — "python3" is not
the last candidate "py", the only case in which the timeout body is sent. The
only response the caller can still receive comes from a later close event
(exit code null after SIGTERM) and carries the "Python script execution
failed" error tag, never the "Python script execution timeout" one. -/
theorem c2_timeout_never_reported :
    (onTimeout (initState "python3" "/s")).1.killed = true ∧
    (onTimeout (initState "python3" "/s")).2 = none ∧
    (runEvents (fun _ => none) (initState "python3" "/s")
        [.timeoutFire, .close none]).2 =
      [.scriptExecutionFailed none "" "" "python3" "/s"] ∧
    (Response.scriptExecutionFailed none "" "" "python3" "/s").errorField =
      some "Python script execution failed" ∧
    (Response.timeout "python3").errorField =
      some "Python script execution timeout" ∧
    timeoutMs = 30000 :=
  ⟨rfl, rfl, rfl, rfl, rfl, rfl⟩

